import Mathlib

/-!
Shallow embedding of the SimpleMicroservices FastAPI application
(`src/main.py`, `src/models/course.py`, `src/models/enrollment.py`).

The Python in-memory "databases" are dictionaries mapping a UUID to a
record.  We model a UUID as a `Nat`, a `datetime` as a `Nat` (an abstract
instant; the two `datetime.utcnow()` calls made while serving one request
are modelled as the single request time), a `date` as a `Nat`, and a
dictionary as an insertion-ordered association list `Store α`, mirroring
Python dict semantics: assignment to an existing key replaces the value in
place, assignment to a new key appends, `del` removes the entry, and
`list(d.values())` lists values in insertion order.
-/

set_option autoImplicit false

namespace SimpleMicro

/-- Python `Dict[UUID, T]`: an insertion-ordered association list. -/
abbrev Store (α : Type) : Type := List (Nat × α)

namespace Store

variable {α : Type}

/-- The empty dictionary (`{}` in `src/main.py`). -/
def empty : Store α := []

/-- Dictionary lookup `d[k]` / membership `k in d`. -/
def find? : Store α → Nat → Option α
  | [], _ => none
  | (k', v) :: t, k => if k' = k then some v else find? t k

/-- Dictionary assignment `d[k] = v`: replace in place, or append. -/
def set : Store α → Nat → α → Store α
  | [], k, v => [(k, v)]
  | (k', v') :: t, k, v => if k' = k then (k, v) :: t else (k', v') :: set t k v

/-- Dictionary deletion `del d[k]` (removes the first entry with key `k`). -/
def erase : Store α → Nat → Store α
  | [], _ => []
  | (k', v') :: t, k => if k' = k then t else (k', v') :: erase t k

/-- Python `list(d.values())`: the stored records in insertion order. -/
def values (s : Store α) : List α := s.map Prod.snd

/-- Python `list(d.keys())`. -/
def keys (s : Store α) : List Nat := s.map Prod.fst

end Store

/-! ## Validation primitives -/

/-- The regex character class `[A-Z]` (ASCII uppercase letter). -/
def isUpperAZ (c : Char) : Bool := decide ('A' ≤ c) && decide (c ≤ 'Z')

/-- The regex character class `\d` (decimal digit). -/
def isDigit09 (c : Char) : Bool := decide ('0' ≤ c) && decide (c ≤ '9')

/-- The pydantic `StringConstraints` pattern of `CourseIDType`
(`src/models/course.py:11`): `^[A-Z]{2,4}\d{4}$`.  Because the two character
classes are disjoint and the pattern is anchored, a string matches iff its
leading run of uppercase letters has length 2..4 and the remainder is exactly
four digits. -/
def courseIdOK (s : String) : Bool :=
  let cs := s.data
  let us := cs.takeWhile isUpperAZ
  let ds := cs.drop us.length
  decide (2 ≤ us.length) && decide (us.length ≤ 4) &&
    decide (ds.length = 4) && ds.all isDigit09

/-- Modelled from the spec: `UNIType` lives in `models/person.py`, which is
missing from the sources; the spec (§3, glossary) describes a UNI as "a short
alphanumeric string", modelled here as a nonempty alphanumeric string. -/
def uniOK (s : String) : Bool := !s.isEmpty && s.data.all Char.isAlphanum

/-- Python `str.lower()`: lower-case every character. -/
def lowerStr (s : String) : String := ⟨s.data.map Char.toLower⟩

/-- Tests whether `needle` is a leading run of `hay` (helper for substring containment). -/
def leadsList : List Char → List Char → Bool
  | [], _ => true
  | _ :: _, [] => false
  | a :: as, b :: bs => a == b && leadsList as bs

/-- Tests whether `needle` occurs contiguously inside `hay`. -/
def hasSub : List Char → List Char → Bool
  | [], needle => needle.isEmpty
  | hay@(_ :: t), needle => leadsList needle hay || hasSub t needle

/-- Python `sub in s` on strings: contiguous-substring containment. -/
def pyIn (sub s : String) : Bool := hasSub s.data sub.data

/-- Python `stored.update(update.model_dump(exclude_unset=True))` for one field:
in an Update payload `none` means the field was not supplied and `some x`
means it was supplied with value `x` (where `x = none` is an explicit JSON
`null`, which pydantic's `exclude_unset` keeps). -/
def updField {β : Type} (f : Option (Option β)) (old : Option β) : Option β :=
  match f with
  | none => old
  | some x => x

/-! ## Data model: Course (`src/models/course.py`) -/

/-- The `CourseRead`: the stored server representation. -/
structure CourseRead where
  course_id : String
  name : String
  department : String
  credits : Int
  description : Option String
  instructor_uni : String
  semester : String
  max_enrollment : Option Int
  id : Nat
  created_at : Nat
  updated_at : Nat
deriving DecidableEq, Repr

/-- The `CourseCreate`: the creation payload (all `CourseBase` fields). -/
structure CourseCreate where
  course_id : String
  name : String
  department : String
  credits : Int
  description : Option String
  instructor_uni : String
  semester : String
  max_enrollment : Option Int
deriving DecidableEq, Repr

/-- The `CourseUpdate`: a partial-update payload; each field is unset (`none`)
or supplied (`some x`, where `x = none` is an explicit `null`). -/
structure CourseUpdate where
  course_id : Option (Option String) := none
  name : Option (Option String) := none
  department : Option (Option String) := none
  credits : Option (Option Int) := none
  description : Option (Option String) := none
  instructor_uni : Option (Option String) := none
  semester : Option (Option String) := none
  max_enrollment : Option (Option Int) := none
deriving DecidableEq, Repr

/-- pydantic validation of a `CourseCreate` body: `course_id` pattern,
`credits` in `[1,6]`, `max_enrollment ≥ 1` when given, `instructor_uni` a
UNI. -/
def courseCreateValid (p : CourseCreate) : Bool :=
  courseIdOK p.course_id && uniOK p.instructor_uni &&
    decide (1 ≤ p.credits) && decide (p.credits ≤ 6) &&
    (match p.max_enrollment with | none => true | some m => decide (1 ≤ m))

/-- pydantic validation of a `CourseUpdate` body: the same per-field
constraints, applied only to supplied non-null values (every field is
`Optional`, so an explicit `null` passes). -/
def courseUpdateValid (u : CourseUpdate) : Bool :=
  (match u.course_id with | some (some s) => courseIdOK s | _ => true) &&
  (match u.instructor_uni with | some (some s) => uniOK s | _ => true) &&
  (match u.credits with
    | some (some n) => decide (1 ≤ n) && decide (n ≤ 6) | _ => true) &&
  (match u.max_enrollment with | some (some n) => decide (1 ≤ n) | _ => true)

/-- The field-constraint part of constructing a `CourseRead`. -/
def courseFieldsOK (cid iu : String) (cr : Int) (me : Option Int) : Bool :=
  courseIdOK cid && uniOK iu && decide (1 ≤ cr) && decide (cr ≤ 6) &&
    (match me with | none => true | some m => decide (1 ≤ m))

/-- Python `stored = courses[id].model_dump(); stored.update(...); CourseRead(**stored)`:
merge the supplied fields over the stored record, then re-validate as pydantic
does when constructing `CourseRead` — required fields reject `null`, and the
field constraints are re-checked.  `none` is the raised `ValidationError`. -/
def courseMerge (r : CourseRead) (u : CourseUpdate) : Option CourseRead :=
  match updField u.course_id (some r.course_id),
        updField u.name (some r.name),
        updField u.department (some r.department),
        updField u.credits (some r.credits),
        updField u.instructor_uni (some r.instructor_uni),
        updField u.semester (some r.semester) with
  | some cid, some nm, some dept, some cr, some iu, some sem =>
      let desc := updField u.description r.description
      let me := updField u.max_enrollment r.max_enrollment
      if courseFieldsOK cid iu cr me then
        some { course_id := cid, name := nm, department := dept, credits := cr,
               description := desc, instructor_uni := iu, semester := sem,
               max_enrollment := me, id := r.id, created_at := r.created_at,
               updated_at := r.updated_at }
      else none
  | _, _, _, _, _, _ => none

/-! ## Data model: Enrollment (`src/models/enrollment.py`) -/

/-- The `EnrollmentStatus`: closed enumeration. -/
inductive EnrollmentStatus where
  | active
  | dropped
  | completed
  | withdrawn
deriving DecidableEq, Repr

/-- The `EnrollmentRead`: the stored server representation. -/
structure EnrollmentRead where
  student_uni : String
  course_id : String
  enrollment_date : Nat
  status : EnrollmentStatus
  grade : Option String
  credits_earned : Option Int
  id : Nat
  created_at : Nat
  updated_at : Nat
deriving DecidableEq, Repr

/-- The `EnrollmentCreate`: the creation payload (all `EnrollmentBase` fields;
`status` defaults to `active` at parse time). -/
structure EnrollmentCreate where
  student_uni : String
  course_id : String
  enrollment_date : Nat
  status : EnrollmentStatus := .active
  grade : Option String := none
  credits_earned : Option Int := none
deriving DecidableEq, Repr

/-- The `EnrollmentUpdate`: a partial-update payload. -/
structure EnrollmentUpdate where
  student_uni : Option (Option String) := none
  course_id : Option (Option String) := none
  enrollment_date : Option (Option Nat) := none
  status : Option (Option EnrollmentStatus) := none
  grade : Option (Option String) := none
  credits_earned : Option (Option Int) := none
deriving DecidableEq, Repr

/-- pydantic validation of an `EnrollmentCreate` body: `student_uni` a UNI,
`course_id` matching the `CourseIDType` pattern, `credits_earned ≥ 0` when
given. -/
def enrollmentCreateValid (p : EnrollmentCreate) : Bool :=
  uniOK p.student_uni && courseIdOK p.course_id &&
    (match p.credits_earned with | none => true | some n => decide (0 ≤ n))

/-- pydantic validation of an `EnrollmentUpdate` body: the same per-field
constraints, applied only to supplied non-null values. -/
def enrollmentUpdateValid (u : EnrollmentUpdate) : Bool :=
  (match u.student_uni with | some (some s) => uniOK s | _ => true) &&
  (match u.course_id with | some (some s) => courseIdOK s | _ => true) &&
  (match u.credits_earned with | some (some n) => decide (0 ≤ n) | _ => true)

/-- The field-constraint part of constructing an `EnrollmentRead`. -/
def enrollmentFieldsOK (su ci : String) (ce : Option Int) : Bool :=
  uniOK su && courseIdOK ci &&
    (match ce with | none => true | some n => decide (0 ≤ n))

/-- Merge an `EnrollmentUpdate` over a stored record and re-validate, as
`EnrollmentRead(**stored)` does; `none` is the raised `ValidationError`. -/
def enrollmentMerge (r : EnrollmentRead) (u : EnrollmentUpdate) :
    Option EnrollmentRead :=
  match updField u.student_uni (some r.student_uni),
        updField u.course_id (some r.course_id),
        updField u.enrollment_date (some r.enrollment_date),
        updField u.status (some r.status) with
  | some su, some ci, some ed, some st =>
      let g := updField u.grade r.grade
      let ce := updField u.credits_earned r.credits_earned
      if enrollmentFieldsOK su ci ce then
        some { student_uni := su, course_id := ci, enrollment_date := ed,
               status := st, grade := g, credits_earned := ce, id := r.id,
               created_at := r.created_at, updated_at := r.updated_at }
      else none
  | _, _, _, _ => none

/-! ## Data model: Address and Person (spec-modelled) -/

/-- Modelled from the spec: `models/address.py` is missing from the sources.
§3: an Address has a caller-supplied identifier and
street/city/state/postal_code/country string fields, with no stated field
constraints, so `AddressCreate` and `AddressRead` carry the same fields. -/
structure AddressRead where
  id : Nat
  street : String
  city : String
  state : String
  postal_code : String
  country : String
deriving DecidableEq, Repr

/-- Modelled from the spec: `AddressUpdate` — every Address field optional
(§4.2: Update shapes carry all fields optional and no identifier). -/
structure AddressUpdate where
  street : Option (Option String) := none
  city : Option (Option String) := none
  state : Option (Option String) := none
  postal_code : Option (Option String) := none
  country : Option (Option String) := none
deriving DecidableEq, Repr

/-- Modelled from the spec: merge an `AddressUpdate` over a stored address;
all five fields are required strings in the Read shape, so an explicit `null`
fails re-validation. -/
def addressMerge (r : AddressRead) (u : AddressUpdate) : Option AddressRead :=
  match updField u.street (some r.street),
        updField u.city (some r.city),
        updField u.state (some r.state),
        updField u.postal_code (some r.postal_code),
        updField u.country (some r.country) with
  | some st, some ci, some sa, some pc, some co =>
      some { id := r.id, street := st, city := ci, state := sa,
             postal_code := pc, country := co }
  | _, _, _, _, _ => none

/-- Modelled from the spec: `models/person.py` is missing from the sources.
§3: a Person has a server-generated identifier, UNI, first/last name, email,
phone, birth date and an embedded ordered list of addresses; `birth_date` is
modelled by its ISO rendering `str(p.birth_date)`, which is what
`list_persons` in `src/main.py` compares against. -/
structure PersonRead where
  id : Nat
  uni : String
  first_name : String
  last_name : String
  email : String
  phone : String
  birth_date : String
  addresses : List AddressRead
deriving DecidableEq, Repr

/-- Modelled from the spec: `PersonCreate` — all Person fields except the
server-generated identifier. -/
structure PersonCreate where
  uni : String
  first_name : String
  last_name : String
  email : String
  phone : String
  birth_date : String
  addresses : List AddressRead
deriving DecidableEq, Repr

/-- Modelled from the spec: `PersonUpdate` — every Person field optional. -/
structure PersonUpdate where
  uni : Option (Option String) := none
  first_name : Option (Option String) := none
  last_name : Option (Option String) := none
  email : Option (Option String) := none
  phone : Option (Option String) := none
  birth_date : Option (Option String) := none
  addresses : Option (Option (List AddressRead)) := none
deriving DecidableEq, Repr

/-- Modelled from the spec: validation of a `PersonCreate` body (the UNI is
the one constrained field the spec names). -/
def personCreateValid (p : PersonCreate) : Bool := uniOK p.uni

/-- Modelled from the spec: validation of a `PersonUpdate` body. -/
def personUpdateValid (u : PersonUpdate) : Bool :=
  match u.uni with | some (some s) => uniOK s | _ => true

/-- Modelled from the spec: merge a `PersonUpdate` over a stored person and
re-validate (required fields reject `null`). -/
def personMerge (r : PersonRead) (u : PersonUpdate) : Option PersonRead :=
  match updField u.uni (some r.uni),
        updField u.first_name (some r.first_name),
        updField u.last_name (some r.last_name),
        updField u.email (some r.email),
        updField u.phone (some r.phone),
        updField u.birth_date (some r.birth_date),
        updField u.addresses (some r.addresses) with
  | some un, some fn, some ln, some em, some ph, some bd, some ads =>
      if uniOK un then
        some { id := r.id, uni := un, first_name := fn, last_name := ln,
               email := em, phone := ph, birth_date := bd, addresses := ads }
      else none
  | _, _, _, _, _, _, _ => none

/-! ## Request handlers (`src/main.py`)

Each handler is the body of the corresponding FastAPI route.  A handler that
mutates its store returns the response together with the store left behind
(the store is unchanged when an error is raised before the mutating
assignment).  Server-generated values that FastAPI/pydantic produce outside
the handler body — the `uuid4` fresh identifier and the `datetime.utcnow()`
request time — are explicit parameters.  `post_* / patch_* / put_*` are the
routes themselves: FastAPI validates the request body against the schema
before the handler runs, and a failure leaves every store untouched. -/

/-- The error responses. -/
inductive Err where
  /-- Python `HTTPException(status_code=404, ...)`. -/
  | notFound
  /-- Python `HTTPException(status_code=400, ...)` — duplicate address id. -/
  | duplicate
  /-- FastAPI request-body validation failure (HTTP 422); the handler never
  runs. -/
  | validation
  /-- A pydantic `ValidationError` raised inside the handler while
  constructing the `*Read` model (HTTP 500). -/
  | serverError
deriving DecidableEq, Repr

/-! ### Address endpoints -/

/-- The `create_address` (`src/main.py:62`): reject a duplicate id with 400,
otherwise store `AddressRead(**address.model_dump())` under the
client-supplied id. -/
def create_address (a : AddressRead) (s : Store AddressRead) :
    Except Err AddressRead × Store AddressRead :=
  match s.find? a.id with
  | some _ => (.error .duplicate, s)
  | none => (.ok a, s.set a.id a)

/-- The `get_address` (`src/main.py:92`). -/
def get_address (aid : Nat) (s : Store AddressRead) : Except Err AddressRead :=
  match s.find? aid with
  | none => .error .notFound
  | some r => .ok r

/-- The `update_address` (`src/main.py:98`). -/
def update_address (aid : Nat) (u : AddressUpdate) (s : Store AddressRead) :
    Except Err AddressRead × Store AddressRead :=
  match s.find? aid with
  | none => (.error .notFound, s)
  | some r =>
    match addressMerge r u with
    | none => (.error .serverError, s)
    | some r2 => (.ok r2, s.set aid r2)

/-- Route `PATCH /addresses/{address_id}` (body validation is shape-only for the
spec-modelled Address). -/
def patch_addresses (aid : Nat) (u : AddressUpdate) (s : Store AddressRead) :
    Except Err AddressRead × Store AddressRead :=
  update_address aid u s

/-! ### Person endpoints -/

/-- Python `PersonRead(**person.model_dump())` with a fresh `uuid4` id. -/
def personReadOfCreate (freshId : Nat) (p : PersonCreate) : PersonRead :=
  { id := freshId, uni := p.uni, first_name := p.first_name,
    last_name := p.last_name, email := p.email, phone := p.phone,
    birth_date := p.birth_date, addresses := p.addresses }

/-- The `create_person` (`src/main.py:110`). -/
def create_person (freshId : Nat) (p : PersonCreate) (s : Store PersonRead) :
    PersonRead × Store PersonRead :=
  let r := personReadOfCreate freshId p
  (r, s.set r.id r)

/-- Route `POST /persons`: body validation, then the handler. -/
def post_persons (freshId : Nat) (p : PersonCreate) (s : Store PersonRead) :
    Except Err PersonRead × Store PersonRead :=
  if personCreateValid p then
    (.ok (create_person freshId p s).1, (create_person freshId p s).2)
  else (.error .validation, s)

/-- The optional query parameters of `GET /persons`. -/
structure PersonQuery where
  uni : Option String := none
  first_name : Option String := none
  last_name : Option String := none
  email : Option String := none
  phone : Option String := none
  birth_date : Option String := none
  city : Option String := none
  country : Option String := none

/-- The `list_persons` (`src/main.py:117`): start from all stored persons and
narrow by each supplied parameter in turn; `city`/`country` keep a person if
*any* embedded address matches. -/
def list_persons (q : PersonQuery) (s : Store PersonRead) : List PersonRead :=
  let results := s.values
  let results := match q.uni with
    | none => results
    | some x => results.filter (fun p => decide (p.uni = x))
  let results := match q.first_name with
    | none => results
    | some x => results.filter (fun p => decide (p.first_name = x))
  let results := match q.last_name with
    | none => results
    | some x => results.filter (fun p => decide (p.last_name = x))
  let results := match q.email with
    | none => results
    | some x => results.filter (fun p => decide (p.email = x))
  let results := match q.phone with
    | none => results
    | some x => results.filter (fun p => decide (p.phone = x))
  let results := match q.birth_date with
    | none => results
    | some x => results.filter (fun p => decide (p.birth_date = x))
  let results := match q.city with
    | none => results
    | some x => results.filter (fun p => p.addresses.any (fun a => decide (a.city = x)))
  let results := match q.country with
    | none => results
    | some x => results.filter (fun p => p.addresses.any (fun a => decide (a.country = x)))
  results

/-- The `get_person` (`src/main.py:151`). -/
def get_person (pid : Nat) (s : Store PersonRead) : Except Err PersonRead :=
  match s.find? pid with
  | none => .error .notFound
  | some r => .ok r

/-- The `update_person` (`src/main.py:157`). -/
def update_person (pid : Nat) (u : PersonUpdate) (s : Store PersonRead) :
    Except Err PersonRead × Store PersonRead :=
  match s.find? pid with
  | none => (.error .notFound, s)
  | some r =>
    match personMerge r u with
    | none => (.error .serverError, s)
    | some r2 => (.ok r2, s.set pid r2)

/-- Route `PATCH /persons/{person_id}`: body validation, then the handler. -/
def patch_persons (pid : Nat) (u : PersonUpdate) (s : Store PersonRead) :
    Except Err PersonRead × Store PersonRead :=
  if personUpdateValid u then update_person pid u s else (.error .validation, s)

/-! ### Course endpoints -/

/-- Python `CourseRead(**course.model_dump())` with a fresh `uuid4` id and the
request time for both timestamps. -/
def courseReadOfCreate (freshId now : Nat) (p : CourseCreate) : CourseRead :=
  { course_id := p.course_id, name := p.name, department := p.department,
    credits := p.credits, description := p.description,
    instructor_uni := p.instructor_uni, semester := p.semester,
    max_enrollment := p.max_enrollment, id := freshId, created_at := now,
    updated_at := now }

/-- The `create_course` (`src/main.py:169`). -/
def create_course (freshId now : Nat) (p : CourseCreate) (s : Store CourseRead) :
    CourseRead × Store CourseRead :=
  let r := courseReadOfCreate freshId now p
  (r, s.set r.id r)

/-- Route `POST /courses`: body validation, then the handler. -/
def post_courses (freshId now : Nat) (p : CourseCreate) (s : Store CourseRead) :
    Except Err CourseRead × Store CourseRead :=
  if courseCreateValid p then
    (.ok (create_course freshId now p s).1, (create_course freshId now p s).2)
  else (.error .validation, s)

/-- The optional query parameters of `GET /courses`. -/
structure CourseQuery where
  course_id : Option String := none
  name : Option String := none
  department : Option String := none
  instructor_uni : Option String := none
  semester : Option String := none
  credits : Option Int := none

/-- The `list_courses` (`src/main.py:176`): start from all stored courses and
narrow by each supplied parameter in turn; the `name` parameter uses
`name.lower() in c.name.lower()`. -/
def list_courses (q : CourseQuery) (s : Store CourseRead) : List CourseRead :=
  let results := s.values
  let results := match q.course_id with
    | none => results
    | some x => results.filter (fun c => decide (c.course_id = x))
  let results := match q.name with
    | none => results
    | some x => results.filter (fun c => pyIn (lowerStr x) (lowerStr c.name))
  let results := match q.department with
    | none => results
    | some x => results.filter (fun c => decide (c.department = x))
  let results := match q.instructor_uni with
    | none => results
    | some x => results.filter (fun c => decide (c.instructor_uni = x))
  let results := match q.semester with
    | none => results
    | some x => results.filter (fun c => decide (c.semester = x))
  let results := match q.credits with
    | none => results
    | some x => results.filter (fun c => decide (c.credits = x))
  results

/-- The `get_course` (`src/main.py:202`). -/
def get_course (cid : Nat) (s : Store CourseRead) : Except Err CourseRead :=
  match s.find? cid with
  | none => .error .notFound
  | some r => .ok r

/-- The `update_course` (`src/main.py:208`). -/
def update_course (cid : Nat) (u : CourseUpdate) (s : Store CourseRead) :
    Except Err CourseRead × Store CourseRead :=
  match s.find? cid with
  | none => (.error .notFound, s)
  | some r =>
    match courseMerge r u with
    | none => (.error .serverError, s)
    | some r2 => (.ok r2, s.set cid r2)

/-- Route `PATCH /courses/{course_uuid}`: body validation, then the handler. -/
def patch_courses (cid : Nat) (u : CourseUpdate) (s : Store CourseRead) :
    Except Err CourseRead × Store CourseRead :=
  if courseUpdateValid u then update_course cid u s else (.error .validation, s)

/-- The record built by `replace_course`: path id, original `created_at`,
`updated_at := datetime.utcnow()`, all other fields from the payload. -/
def courseReadOfReplace (cid ca now : Nat) (p : CourseCreate) : CourseRead :=
  { courseReadOfCreate cid now p with created_at := ca }

/-- The `replace_course` (`src/main.py:217`). -/
def replace_course (cid now : Nat) (p : CourseCreate) (s : Store CourseRead) :
    Except Err CourseRead × Store CourseRead :=
  match s.find? cid with
  | none => (.error .notFound, s)
  | some existing =>
    let r := courseReadOfReplace cid existing.created_at now p
    (.ok r, s.set cid r)

/-- Route `PUT /courses/{course_uuid}`: body validation, then the handler. -/
def put_courses (cid now : Nat) (p : CourseCreate) (s : Store CourseRead) :
    Except Err CourseRead × Store CourseRead :=
  if courseCreateValid p then replace_course cid now p s
  else (.error .validation, s)

/-- The `delete_course` (`src/main.py:232`): delete and return the confirmation
message. -/
def delete_course (cid : Nat) (s : Store CourseRead) :
    Except Err String × Store CourseRead :=
  match s.find? cid with
  | none => (.error .notFound, s)
  | some _ => (.ok "Course deleted successfully", s.erase cid)

/-! ### Enrollment endpoints -/

/-- Python `EnrollmentRead(**enrollment.model_dump())` with a fresh `uuid4` id and
the request time for both timestamps. -/
def enrollmentReadOfCreate (freshId now : Nat) (p : EnrollmentCreate) :
    EnrollmentRead :=
  { student_uni := p.student_uni, course_id := p.course_id,
    enrollment_date := p.enrollment_date, status := p.status,
    grade := p.grade, credits_earned := p.credits_earned, id := freshId,
    created_at := now, updated_at := now }

/-- The `create_enrollment` (`src/main.py:243`). -/
def create_enrollment (freshId now : Nat) (p : EnrollmentCreate)
    (s : Store EnrollmentRead) : EnrollmentRead × Store EnrollmentRead :=
  let r := enrollmentReadOfCreate freshId now p
  (r, s.set r.id r)

/-- Route `POST /enrollments`: body validation, then the handler. -/
def post_enrollments (freshId now : Nat) (p : EnrollmentCreate)
    (s : Store EnrollmentRead) :
    Except Err EnrollmentRead × Store EnrollmentRead :=
  if enrollmentCreateValid p then
    (.ok (create_enrollment freshId now p s).1,
      (create_enrollment freshId now p s).2)
  else (.error .validation, s)

/-- The `get_enrollment` (`src/main.py:273`). -/
def get_enrollment (eid : Nat) (s : Store EnrollmentRead) :
    Except Err EnrollmentRead :=
  match s.find? eid with
  | none => .error .notFound
  | some r => .ok r

/-- The `update_enrollment` (`src/main.py:279`). -/
def update_enrollment (eid : Nat) (u : EnrollmentUpdate)
    (s : Store EnrollmentRead) :
    Except Err EnrollmentRead × Store EnrollmentRead :=
  match s.find? eid with
  | none => (.error .notFound, s)
  | some r =>
    match enrollmentMerge r u with
    | none => (.error .serverError, s)
    | some r2 => (.ok r2, s.set eid r2)

/-- Route `PATCH /enrollments/{enrollment_id}`: body validation, then the
handler. -/
def patch_enrollments (eid : Nat) (u : EnrollmentUpdate)
    (s : Store EnrollmentRead) :
    Except Err EnrollmentRead × Store EnrollmentRead :=
  if enrollmentUpdateValid u then update_enrollment eid u s
  else (.error .validation, s)

/-- The record built by `replace_enrollment`. -/
def enrollmentReadOfReplace (eid ca now : Nat) (p : EnrollmentCreate) :
    EnrollmentRead :=
  { enrollmentReadOfCreate eid now p with created_at := ca }

/-- The `replace_enrollment` (`src/main.py:288`). -/
def replace_enrollment (eid now : Nat) (p : EnrollmentCreate)
    (s : Store EnrollmentRead) :
    Except Err EnrollmentRead × Store EnrollmentRead :=
  match s.find? eid with
  | none => (.error .notFound, s)
  | some existing =>
    let r := enrollmentReadOfReplace eid existing.created_at now p
    (.ok r, s.set eid r)

/-- Route `PUT /enrollments/{enrollment_id}`: body validation, then the handler. -/
def put_enrollments (eid now : Nat) (p : EnrollmentCreate)
    (s : Store EnrollmentRead) :
    Except Err EnrollmentRead × Store EnrollmentRead :=
  if enrollmentCreateValid p then replace_enrollment eid now p s
  else (.error .validation, s)

/-- The `delete_enrollment` (`src/main.py:303`). -/
def delete_enrollment (eid : Nat) (s : Store EnrollmentRead) :
    Except Err String × Store EnrollmentRead :=
  match s.find? eid with
  | none => (.error .notFound, s)
  | some _ => (.ok "Enrollment deleted successfully", s.erase eid)

/-! ## The whole application

The four module-level dictionaries of `src/main.py` (lines 25-28), and each
route as a transformer of that global state.  Every handler closes over all
four dictionaries but touches only its own. -/

/-- The four global in-memory stores (`src/main.py:25-28`). -/
structure AppState where
  addresses : Store AddressRead
  persons : Store PersonRead
  courses : Store CourseRead
  enrollments : Store EnrollmentRead
deriving DecidableEq, Repr

/-- The state at process start: four empty dictionaries. -/
def AppState.empty : AppState :=
  { addresses := [], persons := [], courses := [], enrollments := [] }

/-- Route `POST /addresses` on the application state. -/
def appPostAddress (a : AddressRead) (st : AppState) :
    Except Err AddressRead × AppState :=
  ((create_address a st.addresses).1, { st with addresses := (create_address a st.addresses).2 })

/-- Route `PATCH /addresses/{address_id}` on the application state. -/
def appPatchAddress (aid : Nat) (u : AddressUpdate) (st : AppState) :
    Except Err AddressRead × AppState :=
  ((patch_addresses aid u st.addresses).1, { st with addresses := (patch_addresses aid u st.addresses).2 })

/-- Route `POST /persons` on the application state. -/
def appPostPerson (freshId : Nat) (p : PersonCreate) (st : AppState) :
    Except Err PersonRead × AppState :=
  ((post_persons freshId p st.persons).1, { st with persons := (post_persons freshId p st.persons).2 })

/-- Route `PATCH /persons/{person_id}` on the application state. -/
def appPatchPerson (pid : Nat) (u : PersonUpdate) (st : AppState) :
    Except Err PersonRead × AppState :=
  ((patch_persons pid u st.persons).1, { st with persons := (patch_persons pid u st.persons).2 })

/-- Route `POST /courses` on the application state. -/
def appPostCourse (freshId now : Nat) (p : CourseCreate) (st : AppState) :
    Except Err CourseRead × AppState :=
  ((post_courses freshId now p st.courses).1, { st with courses := (post_courses freshId now p st.courses).2 })

/-- Route `PATCH /courses/{course_uuid}` on the application state. -/
def appPatchCourse (cid : Nat) (u : CourseUpdate) (st : AppState) :
    Except Err CourseRead × AppState :=
  ((patch_courses cid u st.courses).1, { st with courses := (patch_courses cid u st.courses).2 })

/-- Route `PUT /courses/{course_uuid}` on the application state. -/
def appPutCourse (cid now : Nat) (p : CourseCreate) (st : AppState) :
    Except Err CourseRead × AppState :=
  ((put_courses cid now p st.courses).1, { st with courses := (put_courses cid now p st.courses).2 })

/-- Route `DELETE /courses/{course_uuid}` on the application state. -/
def appDeleteCourse (cid : Nat) (st : AppState) :
    Except Err String × AppState :=
  ((delete_course cid st.courses).1, { st with courses := (delete_course cid st.courses).2 })

/-- Route `POST /enrollments` on the application state. -/
def appPostEnrollment (freshId now : Nat) (p : EnrollmentCreate)
    (st : AppState) : Except Err EnrollmentRead × AppState :=
  ((post_enrollments freshId now p st.enrollments).1, { st with enrollments := (post_enrollments freshId now p st.enrollments).2 })

/-- Route `PATCH /enrollments/{enrollment_id}` on the application state. -/
def appPatchEnrollment (eid : Nat) (u : EnrollmentUpdate) (st : AppState) :
    Except Err EnrollmentRead × AppState :=
  ((patch_enrollments eid u st.enrollments).1, { st with enrollments := (patch_enrollments eid u st.enrollments).2 })

/-- Route `PUT /enrollments/{enrollment_id}` on the application state. -/
def appPutEnrollment (eid now : Nat) (p : EnrollmentCreate) (st : AppState) :
    Except Err EnrollmentRead × AppState :=
  ((put_enrollments eid now p st.enrollments).1, { st with enrollments := (put_enrollments eid now p st.enrollments).2 })

/-- Route `DELETE /enrollments/{enrollment_id}` on the application state. -/
def appDeleteEnrollment (eid : Nat) (st : AppState) :
    Except Err String × AppState :=
  ((delete_enrollment eid st.enrollments).1, { st with enrollments := (delete_enrollment eid st.enrollments).2 })

/-- One mutating API request (the read-only routes do not change state).
Server-generated inputs — fresh `uuid4` identifiers and request times —
are carried by the operation. -/
inductive ApiOp where
  | postAddress (a : AddressRead)
  | patchAddress (aid : Nat) (u : AddressUpdate)
  | postPerson (freshId : Nat) (p : PersonCreate)
  | patchPerson (pid : Nat) (u : PersonUpdate)
  | postCourse (freshId now : Nat) (p : CourseCreate)
  | patchCourse (cid : Nat) (u : CourseUpdate)
  | putCourse (cid now : Nat) (p : CourseCreate)
  | deleteCourse (cid : Nat)
  | postEnrollment (freshId now : Nat) (p : EnrollmentCreate)
  | patchEnrollment (eid : Nat) (u : EnrollmentUpdate)
  | putEnrollment (eid now : Nat) (p : EnrollmentCreate)
  | deleteEnrollment (eid : Nat)

/-- The state left behind by one request. -/
def applyOp (st : AppState) : ApiOp → AppState
  | .postAddress a => (appPostAddress a st).2
  | .patchAddress aid u => (appPatchAddress aid u st).2
  | .postPerson freshId p => (appPostPerson freshId p st).2
  | .patchPerson pid u => (appPatchPerson pid u st).2
  | .postCourse freshId now p => (appPostCourse freshId now p st).2
  | .patchCourse cid u => (appPatchCourse cid u st).2
  | .putCourse cid now p => (appPutCourse cid now p st).2
  | .deleteCourse cid => (appDeleteCourse cid st).2
  | .postEnrollment freshId now p => (appPostEnrollment freshId now p st).2
  | .patchEnrollment eid u => (appPatchEnrollment eid u st).2
  | .putEnrollment eid now p => (appPutEnrollment eid now p st).2
  | .deleteEnrollment eid => (appDeleteEnrollment eid st).2

/-- Serve a sequence of requests. -/
def runOps (st : AppState) : List ApiOp → AppState
  | [] => st
  | op :: ops => runOps (applyOp st op) ops

/-- All four stores have pairwise-distinct identifiers. -/
def keysUnique (st : AppState) : Prop :=
  (Store.keys st.addresses).Nodup ∧ (Store.keys st.persons).Nodup ∧
    (Store.keys st.courses).Nodup ∧ (Store.keys st.enrollments).Nodup

instance (st : AppState) : Decidable (keysUnique st) := by
  unfold keysUnique
  infer_instance

/-! ## Shared invariant lemmas -/

/-- The only dictionary mutations a handler performs: leave the store alone,
do one assignment, or one deletion. -/
def StoreEvolve {α : Type} (s s2 : Store α) : Prop :=
  s2 = s ∨ (∃ k v, s2 = s.set k v) ∨ ∃ k, s2 = s.erase k

/-! ## Sample data (concrete instances for evaluating the theorems) -/

/-- A sample address record. -/
def sampleAddress : AddressRead :=
  { id := 1, street := "116th St", city := "New York", state := "NY",
    postal_code := "10027", country := "USA" }

/-- A second sample address sharing the identifier of `sampleAddress`. -/
def sampleAddress2 : AddressRead :=
  { sampleAddress with street := "Broadway", city := "Yonkers" }

/-- A sample person creation payload. -/
def samplePersonCreate : PersonCreate :=
  { uni := "abc1234", first_name := "Ada", last_name := "Lovelace",
    email := "ada@example.edu", phone := "555-0100",
    birth_date := "1815-12-10", addresses := [sampleAddress] }

/-- A sample course creation payload (the `CourseBase` example). -/
def sampleCourseCreate : CourseCreate :=
  { course_id := "CS1234", name := "Introduction to Computer Science",
    department := "Computer Science", credits := 3, description := none,
    instructor_uni := "pr123", semester := "Fall 2024",
    max_enrollment := some 30 }

/-- A sample course creation payload with the rejected `course_id`. -/
def badCourseCreate : CourseCreate :=
  { sampleCourseCreate with course_id := "cs123" }

/-- A sample enrollment creation payload. -/
def sampleEnrollmentCreate : EnrollmentCreate :=
  { student_uni := "abc1234", course_id := "CS1234", enrollment_date := 20 }

/-- A stored sample course record. -/
def sampleCourseRead : CourseRead := courseReadOfCreate 7 10 sampleCourseCreate

/-- A stored sample enrollment record. -/
def sampleEnrollmentRead : EnrollmentRead :=
  enrollmentReadOfCreate 9 10 sampleEnrollmentCreate

/-- The PATCH body `{"student_uni": null}`: a valid `EnrollmentUpdate` that
explicitly supplies `null` for a field the Read schema requires. -/
def nullStudentUniUpdate : EnrollmentUpdate := { student_uni := some none }

/-! ## Store lemmas -/

namespace Store

variable {α : Type}

@[simp] theorem find?_nil (k : Nat) : find? ([] : Store α) k = none := rfl

@[simp] theorem find?_cons (k' : Nat) (v : α) (t : Store α) (k : Nat) :
    find? ((k', v) :: t) k = if k' = k then some v else find? t k := rfl

@[simp] theorem set_nil (k : Nat) (v : α) : set ([] : Store α) k v = [(k, v)] := rfl

@[simp] theorem set_cons (k' : Nat) (v' : α) (t : Store α) (k : Nat) (v : α) :
    set ((k', v') :: t) k v =
      if k' = k then (k, v) :: t else (k', v') :: set t k v := rfl

@[simp] theorem erase_nil (k : Nat) : erase ([] : Store α) k = [] := rfl

@[simp] theorem erase_cons (k' : Nat) (v' : α) (t : Store α) (k : Nat) :
    erase ((k', v') :: t) k = if k' = k then t else (k', v') :: erase t k := rfl

@[simp] theorem keys_nil : keys ([] : Store α) = [] := rfl

@[simp] theorem keys_cons (k : Nat) (v : α) (t : Store α) :
    keys ((k, v) :: t) = k :: keys t := rfl

@[simp] theorem values_nil : values ([] : Store α) = [] := rfl

@[simp] theorem values_cons (k : Nat) (v : α) (t : Store α) :
    values ((k, v) :: t) = v :: values t := rfl

theorem find?_set_self (s : Store α) (k : Nat) (v : α) :
    find? (set s k v) k = some v := by
  induction s with
  | nil => simp
  | cons hd t ih =>
    obtain ⟨k', v'⟩ := hd
    by_cases h : k' = k <;> simp [h, ih]

theorem find?_set_ne (s : Store α) (k k' : Nat) (v : α) (h : k' ≠ k) :
    find? (set s k v) k' = find? s k' := by
  induction s with
  | nil => simp [Ne.symm h]
  | cons hd t ih =>
    obtain ⟨k₀, v₀⟩ := hd
    by_cases h0 : k₀ = k
    · subst h0
      simp [Ne.symm h]
    · by_cases h1 : k₀ = k' <;> simp [h0, h1, h, ih]

theorem find?_eq_none_of_not_mem_keys (s : Store α) (k : Nat) (h : k ∉ keys s) :
    find? s k = none := by
  induction s with
  | nil => simp
  | cons hd t ih =>
    obtain ⟨k₀, v₀⟩ := hd
    simp only [keys_cons, List.mem_cons, not_or] at h
    have hk : k₀ ≠ k := fun he => h.1 he.symm
    simp [hk, ih h.2]

theorem find?_erase_self (s : Store α) (k : Nat) (hnd : (keys s).Nodup) :
    find? (erase s k) k = none := by
  induction s with
  | nil => simp
  | cons hd t ih =>
    obtain ⟨k₀, v₀⟩ := hd
    simp only [keys_cons, List.nodup_cons] at hnd
    by_cases h0 : k₀ = k
    · subst h0
      simp only [erase_cons, if_pos rfl]
      exact find?_eq_none_of_not_mem_keys t k₀ hnd.1
    · simp [h0, ih hnd.2]

theorem find?_erase_ne (s : Store α) (k k' : Nat) (h : k' ≠ k) :
    find? (erase s k) k' = find? s k' := by
  induction s with
  | nil => simp
  | cons hd t ih =>
    obtain ⟨k₀, v₀⟩ := hd
    by_cases h0 : k₀ = k
    · subst h0
      simp [Ne.symm h]
    · by_cases h1 : k₀ = k' <;> simp [h0, h1, h, ih]

theorem keys_set (s : Store α) (k : Nat) (v : α) :
    keys (set s k v) = if k ∈ keys s then keys s else keys s ++ [k] := by
  induction s with
  | nil => simp
  | cons hd t ih =>
    obtain ⟨k₀, v₀⟩ := hd
    by_cases h0 : k₀ = k
    · subst h0
      simp
    · have hk : ¬ k = k₀ := fun h => h0 h.symm
      simp only [set_cons, if_neg h0, keys_cons, ih, List.mem_cons, hk, false_or]
      by_cases hm : k ∈ keys t <;> simp [hm]

theorem keys_nodup_set (s : Store α) (k : Nat) (v : α) (hnd : (keys s).Nodup) :
    (keys (set s k v)).Nodup := by
  rw [keys_set]
  by_cases hm : k ∈ keys s
  · simpa [hm] using hnd
  · simp only [hm, if_false]
    refine List.Nodup.append hnd (List.nodup_singleton _) ?_
    intro a ha hb
    simp only [List.mem_singleton] at hb
    subst hb
    exact hm ha

theorem keys_erase_sublist (s : Store α) (k : Nat) :
    (keys (erase s k)).Sublist (keys s) := by
  induction s with
  | nil => simp
  | cons hd t ih =>
    obtain ⟨k₀, v₀⟩ := hd
    by_cases h0 : k₀ = k
    · simp only [erase_cons, if_pos h0, keys_cons]
      exact List.sublist_cons_self _ _
    · simp only [erase_cons, if_neg h0, keys_cons]
      exact List.Sublist.cons₂ _ ih

theorem keys_nodup_erase (s : Store α) (k : Nat) (hnd : (keys s).Nodup) :
    (keys (erase s k)).Nodup :=
  (keys_erase_sublist s k).nodup hnd

theorem mem_keys_iff_find? (s : Store α) (k : Nat) :
    k ∈ keys s ↔ find? s k ≠ none := by
  induction s with
  | nil => simp
  | cons hd t ih =>
    obtain ⟨k₀, v₀⟩ := hd
    by_cases h0 : k₀ = k
    · subst h0
      simp
    · have hk : ¬ k = k₀ := fun h => h0 h.symm
      simp [h0, hk, ih]

theorem set_find?_eq (s : Store α) (k : Nat) (v : α) (h : find? s k = some v) :
    set s k v = s := by
  induction s with
  | nil => simp at h
  | cons hd t ih =>
    obtain ⟨k₀, v₀⟩ := hd
    by_cases h0 : k₀ = k
    · subst h0
      have h' : v₀ = v := by simpa using h
      simp [h']
    · simp only [find?_cons, if_neg h0] at h
      simp [h0, ih h]

end Store

theorem StoreEvolve.nodup {α : Type} {s s2 : Store α} (h : StoreEvolve s s2)
    (hnd : (Store.keys s).Nodup) : (Store.keys s2).Nodup := by
  rcases h with rfl | ⟨k, v, rfl⟩ | ⟨k, rfl⟩
  · exact hnd
  · exact Store.keys_nodup_set _ _ _ hnd
  · exact Store.keys_nodup_erase _ _ hnd

theorem evolve_create_address (a : AddressRead) (s : Store AddressRead) :
    StoreEvolve s (create_address a s).2 := by
  unfold create_address
  split
  · exact Or.inl rfl
  · exact Or.inr (Or.inl ⟨a.id, a, rfl⟩)

theorem evolve_patch_addresses (aid : Nat) (u : AddressUpdate)
    (s : Store AddressRead) : StoreEvolve s (patch_addresses aid u s).2 := by
  unfold patch_addresses update_address
  split
  · exact Or.inl rfl
  · split
    · exact Or.inl rfl
    · exact Or.inr (Or.inl ⟨aid, _, rfl⟩)

theorem evolve_post_persons (freshId : Nat) (p : PersonCreate)
    (s : Store PersonRead) : StoreEvolve s (post_persons freshId p s).2 := by
  unfold post_persons create_person
  split
  · exact Or.inr (Or.inl ⟨_, _, rfl⟩)
  · exact Or.inl rfl

theorem evolve_patch_persons (pid : Nat) (u : PersonUpdate)
    (s : Store PersonRead) : StoreEvolve s (patch_persons pid u s).2 := by
  unfold patch_persons update_person
  split
  · split
    · exact Or.inl rfl
    · split
      · exact Or.inl rfl
      · exact Or.inr (Or.inl ⟨pid, _, rfl⟩)
  · exact Or.inl rfl

theorem evolve_post_courses (freshId now : Nat) (p : CourseCreate)
    (s : Store CourseRead) : StoreEvolve s (post_courses freshId now p s).2 := by
  unfold post_courses create_course
  split
  · exact Or.inr (Or.inl ⟨_, _, rfl⟩)
  · exact Or.inl rfl

theorem evolve_patch_courses (cid : Nat) (u : CourseUpdate)
    (s : Store CourseRead) : StoreEvolve s (patch_courses cid u s).2 := by
  unfold patch_courses update_course
  split
  · split
    · exact Or.inl rfl
    · split
      · exact Or.inl rfl
      · exact Or.inr (Or.inl ⟨cid, _, rfl⟩)
  · exact Or.inl rfl

theorem evolve_put_courses (cid now : Nat) (p : CourseCreate)
    (s : Store CourseRead) : StoreEvolve s (put_courses cid now p s).2 := by
  unfold put_courses replace_course
  split
  · split
    · exact Or.inl rfl
    · exact Or.inr (Or.inl ⟨cid, _, rfl⟩)
  · exact Or.inl rfl

theorem evolve_delete_course (cid : Nat) (s : Store CourseRead) :
    StoreEvolve s (delete_course cid s).2 := by
  unfold delete_course
  split
  · exact Or.inl rfl
  · exact Or.inr (Or.inr ⟨cid, rfl⟩)

theorem evolve_post_enrollments (freshId now : Nat) (p : EnrollmentCreate)
    (s : Store EnrollmentRead) :
    StoreEvolve s (post_enrollments freshId now p s).2 := by
  unfold post_enrollments create_enrollment
  split
  · exact Or.inr (Or.inl ⟨_, _, rfl⟩)
  · exact Or.inl rfl

theorem evolve_patch_enrollments (eid : Nat) (u : EnrollmentUpdate)
    (s : Store EnrollmentRead) :
    StoreEvolve s (patch_enrollments eid u s).2 := by
  unfold patch_enrollments update_enrollment
  split
  · split
    · exact Or.inl rfl
    · split
      · exact Or.inl rfl
      · exact Or.inr (Or.inl ⟨eid, _, rfl⟩)
  · exact Or.inl rfl

theorem evolve_put_enrollments (eid now : Nat) (p : EnrollmentCreate)
    (s : Store EnrollmentRead) :
    StoreEvolve s (put_enrollments eid now p s).2 := by
  unfold put_enrollments replace_enrollment
  split
  · split
    · exact Or.inl rfl
    · exact Or.inr (Or.inl ⟨eid, _, rfl⟩)
  · exact Or.inl rfl

theorem evolve_delete_enrollment (eid : Nat) (s : Store EnrollmentRead) :
    StoreEvolve s (delete_enrollment eid s).2 := by
  unfold delete_enrollment
  split
  · exact Or.inl rfl
  · exact Or.inr (Or.inr ⟨eid, rfl⟩)

/-- One request preserves uniqueness of identifiers in every store. -/
theorem keysUnique_applyOp (st : AppState) (op : ApiOp) (h : keysUnique st) :
    keysUnique (applyOp st op) := by
  obtain ⟨h1, h2, h3, h4⟩ := h
  cases op with
  | postAddress a =>
    exact ⟨(evolve_create_address a st.addresses).nodup h1, h2, h3, h4⟩
  | patchAddress aid u =>
    exact ⟨(evolve_patch_addresses aid u st.addresses).nodup h1, h2, h3, h4⟩
  | postPerson freshId p =>
    exact ⟨h1, (evolve_post_persons freshId p st.persons).nodup h2, h3, h4⟩
  | patchPerson pid u =>
    exact ⟨h1, (evolve_patch_persons pid u st.persons).nodup h2, h3, h4⟩
  | postCourse freshId now p =>
    exact ⟨h1, h2, (evolve_post_courses freshId now p st.courses).nodup h3, h4⟩
  | patchCourse cid u =>
    exact ⟨h1, h2, (evolve_patch_courses cid u st.courses).nodup h3, h4⟩
  | putCourse cid now p =>
    exact ⟨h1, h2, (evolve_put_courses cid now p st.courses).nodup h3, h4⟩
  | deleteCourse cid =>
    exact ⟨h1, h2, (evolve_delete_course cid st.courses).nodup h3, h4⟩
  | postEnrollment freshId now p =>
    exact ⟨h1, h2, h3,
      (evolve_post_enrollments freshId now p st.enrollments).nodup h4⟩
  | patchEnrollment eid u =>
    exact ⟨h1, h2, h3,
      (evolve_patch_enrollments eid u st.enrollments).nodup h4⟩
  | putEnrollment eid now p =>
    exact ⟨h1, h2, h3,
      (evolve_put_enrollments eid now p st.enrollments).nodup h4⟩
  | deleteEnrollment eid =>
    exact ⟨h1, h2, h3, (evolve_delete_enrollment eid st.enrollments).nodup h4⟩

/-- A whole request sequence preserves uniqueness of identifiers. -/
theorem keysUnique_runOps (ops : List ApiOp) (st : AppState)
    (h : keysUnique st) : keysUnique (runOps st ops) := by
  induction ops generalizing st with
  | nil => exact h
  | cons op ops ih => exact ih _ (keysUnique_applyOp st op h)

theorem keysUnique_empty : keysUnique AppState.empty :=
  ⟨List.nodup_nil, List.nodup_nil, List.nodup_nil, List.nodup_nil⟩

/-! ## The claims -/

/-- C1: for every valid Create payload of each of the four resources,
performing create and then immediately get-by-id with the identifier
returned by create succeeds and returns a record equal field-for-field to
the record returned by create (the address create presupposes its
client-supplied identifier is free, since it would otherwise be
rejected). -/
theorem claim1_create_then_get_roundtrip
    (a : AddressRead) (sa : Store AddressRead)
    (freshP : Nat) (p : PersonCreate) (sp : Store PersonRead)
    (freshC nowC : Nat) (c : CourseCreate) (sc : Store CourseRead)
    (freshE nowE : Nat) (e : EnrollmentCreate) (se : Store EnrollmentRead)
    (ha : sa.find? a.id = none) (hp : personCreateValid p = true)
    (hc : courseCreateValid c = true) (he : enrollmentCreateValid e = true) :
    ((create_address a sa).1 = .ok a ∧
      get_address a.id (create_address a sa).2 = .ok a) ∧
    ((post_persons freshP p sp).1 = .ok (personReadOfCreate freshP p) ∧
      get_person (personReadOfCreate freshP p).id (post_persons freshP p sp).2 =
        .ok (personReadOfCreate freshP p)) ∧
    ((post_courses freshC nowC c sc).1 = .ok (courseReadOfCreate freshC nowC c) ∧
      get_course (courseReadOfCreate freshC nowC c).id
          (post_courses freshC nowC c sc).2 =
        .ok (courseReadOfCreate freshC nowC c)) ∧
    ((post_enrollments freshE nowE e se).1 =
        .ok (enrollmentReadOfCreate freshE nowE e) ∧
      get_enrollment (enrollmentReadOfCreate freshE nowE e).id
          (post_enrollments freshE nowE e se).2 =
        .ok (enrollmentReadOfCreate freshE nowE e)) := by
  refine ⟨⟨?_, ?_⟩, ⟨?_, ?_⟩, ⟨?_, ?_⟩, ⟨?_, ?_⟩⟩
  · simp [create_address, ha]
  · simp [create_address, get_address, ha, Store.find?_set_self]
  · simp [post_persons, hp, create_person]
  · simp [post_persons, hp, create_person, get_person, Store.find?_set_self]
  · simp [post_courses, hc, create_course]
  · simp [post_courses, hc, create_course, get_course, Store.find?_set_self]
  · simp [post_enrollments, he, create_enrollment]
  · simp [post_enrollments, he, create_enrollment, get_enrollment,
      Store.find?_set_self]

/-- C1 witness: the course round trip on concrete data, via the theorem. -/
theorem claim1_witness :
    (post_courses 3 10 sampleCourseCreate []).1 =
        .ok (courseReadOfCreate 3 10 sampleCourseCreate) ∧
      get_course (courseReadOfCreate 3 10 sampleCourseCreate).id
          (post_courses 3 10 sampleCourseCreate []).2 =
        .ok (courseReadOfCreate 3 10 sampleCourseCreate) :=
  (claim1_create_then_get_roundtrip sampleAddress [] 2 samplePersonCreate []
    3 10 sampleCourseCreate [] 4 11 sampleEnrollmentCreate []
    rfl rfl rfl rfl).2.2.1

/-- C6: creating an address whose identifier is free stores it under exactly
the client-supplied identifier and returns it; a second create with the same
identifier fails with the 400 duplicate-key error, leaves the store
unchanged, and the store still holds only the first record under that
identifier. -/
theorem claim6_address_duplicate_create
    (a1 a2 : AddressRead) (s : Store AddressRead)
    (h0 : s.find? a1.id = none) (heq : a2.id = a1.id) :
    (create_address a1 s).1 = .ok a1 ∧
    (create_address a1 s).2 = s.set a1.id a1 ∧
    Store.find? (create_address a1 s).2 a1.id = some a1 ∧
    create_address a2 (create_address a1 s).2 =
      (.error .duplicate, (create_address a1 s).2) ∧
    Store.find? (create_address a2 (create_address a1 s).2).2 a1.id =
      some a1 := by
  have h1 : (create_address a1 s).2 = s.set a1.id a1 := by
    simp [create_address, h0]
  have h2 : create_address a2 (s.set a1.id a1) =
      (.error .duplicate, s.set a1.id a1) := by
    unfold create_address
    rw [heq, Store.find?_set_self]
  refine ⟨by simp [create_address, h0], h1, ?_, ?_, ?_⟩
  · rw [h1]
    exact Store.find?_set_self s a1.id a1
  · rw [h1, h2]
  · rw [h1, h2]
    exact Store.find?_set_self s a1.id a1

/-- C6 witness: the duplicate create rejected on concrete data. -/
theorem claim6_witness :
    create_address sampleAddress2 (create_address sampleAddress []).2 =
      (.error .duplicate, (create_address sampleAddress []).2) :=
  (claim6_address_duplicate_create sampleAddress sampleAddress2 []
    rfl rfl).2.2.2.1

/-- C10: deleting a stored course removes exactly that record (its key no
longer resolves; every other key resolves as before) and returns the body
`{"message": "Course deleted successfully"}`; an immediately repeated delete
of the same identifier fails with the 404 not-found error and changes no
store. -/
theorem claim10_delete_course_twice
    (cid : Nat) (s : Store CourseRead) (r : CourseRead) (st : AppState)
    (hfind : s.find? cid = some r) (hnd : (Store.keys s).Nodup)
    (hst : st.courses = s.erase cid) :
    delete_course cid s = (.ok "Course deleted successfully", s.erase cid) ∧
    Store.find? (s.erase cid) cid = none ∧
    (∀ k, k ≠ cid → Store.find? (s.erase cid) k = s.find? k) ∧
    delete_course cid (s.erase cid) = (.error .notFound, s.erase cid) ∧
    appDeleteCourse cid st = (.error .notFound, st) := by
  have h1 : Store.find? (s.erase cid) cid = none :=
    Store.find?_erase_self s cid hnd
  refine ⟨by simp [delete_course, hfind], h1, ?_, ?_, ?_⟩
  · intro k hk
    exact Store.find?_erase_ne s cid k hk
  · simp [delete_course, h1]
  · have h2 : ({ st with courses := s.erase cid } : AppState) = st := by
      rw [← hst]
    simp [appDeleteCourse, delete_course, hst, h1, h2]

/-- C10 witness: delete-twice on a one-course store, via the theorem. -/
theorem claim10_witness :
    delete_course 7 [(7, sampleCourseRead)] =
      (.ok "Course deleted successfully",
        Store.erase [(7, sampleCourseRead)] 7) ∧
    delete_course 7 (Store.erase [(7, sampleCourseRead)] 7) =
      (.error .notFound, Store.erase [(7, sampleCourseRead)] 7) :=
  ⟨(claim10_delete_course_twice 7 [(7, sampleCourseRead)] sampleCourseRead
      { AppState.empty with courses := Store.erase [(7, sampleCourseRead)] 7 }
      rfl (by simp) rfl).1,
   (claim10_delete_course_twice 7 [(7, sampleCourseRead)] sampleCourseRead
      { AppState.empty with courses := Store.erase [(7, sampleCourseRead)] 7 }
      rfl (by simp) rfl).2.2.2.1⟩

/-- C3: full replace (PUT) of a stored course or enrollment stores (and
returns) a record whose identifier equals the path identifier, whose
`created_at` equals the original record's `created_at`, whose `updated_at`
is the request time (hence `created_at ≤ updated_at` whenever time has not
run backwards since creation), and whose every other field takes the value
from the request payload. -/
theorem claim3_replace_semantics
    (cid nowC : Nat) (c : CourseCreate) (sc : Store CourseRead) (rc : CourseRead)
    (eid nowE : Nat) (e : EnrollmentCreate) (se : Store EnrollmentRead)
    (re : EnrollmentRead)
    (hc : sc.find? cid = some rc) (hcv : courseCreateValid c = true)
    (he : se.find? eid = some re) (hev : enrollmentCreateValid e = true) :
    (put_courses cid nowC c sc =
        (.ok (courseReadOfReplace cid rc.created_at nowC c),
          sc.set cid (courseReadOfReplace cid rc.created_at nowC c)) ∧
      (courseReadOfReplace cid rc.created_at nowC c).id = cid ∧
      (courseReadOfReplace cid rc.created_at nowC c).created_at =
        rc.created_at ∧
      (courseReadOfReplace cid rc.created_at nowC c).updated_at = nowC ∧
      (courseReadOfReplace cid rc.created_at nowC c).course_id = c.course_id ∧
      (courseReadOfReplace cid rc.created_at nowC c).name = c.name ∧
      (courseReadOfReplace cid rc.created_at nowC c).department =
        c.department ∧
      (courseReadOfReplace cid rc.created_at nowC c).credits = c.credits ∧
      (courseReadOfReplace cid rc.created_at nowC c).description =
        c.description ∧
      (courseReadOfReplace cid rc.created_at nowC c).instructor_uni =
        c.instructor_uni ∧
      (courseReadOfReplace cid rc.created_at nowC c).semester = c.semester ∧
      (courseReadOfReplace cid rc.created_at nowC c).max_enrollment =
        c.max_enrollment ∧
      (rc.created_at ≤ nowC →
        (courseReadOfReplace cid rc.created_at nowC c).created_at ≤
          (courseReadOfReplace cid rc.created_at nowC c).updated_at)) ∧
    (put_enrollments eid nowE e se =
        (.ok (enrollmentReadOfReplace eid re.created_at nowE e),
          se.set eid (enrollmentReadOfReplace eid re.created_at nowE e)) ∧
      (enrollmentReadOfReplace eid re.created_at nowE e).id = eid ∧
      (enrollmentReadOfReplace eid re.created_at nowE e).created_at =
        re.created_at ∧
      (enrollmentReadOfReplace eid re.created_at nowE e).updated_at = nowE ∧
      (enrollmentReadOfReplace eid re.created_at nowE e).student_uni =
        e.student_uni ∧
      (enrollmentReadOfReplace eid re.created_at nowE e).course_id =
        e.course_id ∧
      (enrollmentReadOfReplace eid re.created_at nowE e).enrollment_date =
        e.enrollment_date ∧
      (enrollmentReadOfReplace eid re.created_at nowE e).status = e.status ∧
      (enrollmentReadOfReplace eid re.created_at nowE e).grade = e.grade ∧
      (enrollmentReadOfReplace eid re.created_at nowE e).credits_earned =
        e.credits_earned ∧
      (re.created_at ≤ nowE →
        (enrollmentReadOfReplace eid re.created_at nowE e).created_at ≤
          (enrollmentReadOfReplace eid re.created_at nowE e).updated_at)) := by
  refine ⟨⟨?_, rfl, rfl, rfl, rfl, rfl, rfl, rfl, rfl, rfl, rfl, rfl, ?_⟩,
    ⟨?_, rfl, rfl, rfl, rfl, rfl, rfl, rfl, rfl, rfl, ?_⟩⟩
  · simp [put_courses, hcv, replace_course, hc]
  · intro h
    simpa [courseReadOfReplace, courseReadOfCreate] using h
  · simp [put_enrollments, hev, replace_enrollment, he]
  · intro h
    simpa [enrollmentReadOfReplace, enrollmentReadOfCreate] using h

/-- C3 witness: replace on a one-record store, via the theorem. -/
theorem claim3_witness :
    put_courses 7 12 sampleCourseCreate [(7, sampleCourseRead)] =
      (.ok (courseReadOfReplace 7 sampleCourseRead.created_at 12
          sampleCourseCreate),
        Store.set [(7, sampleCourseRead)] 7
          (courseReadOfReplace 7 sampleCourseRead.created_at 12
            sampleCourseCreate)) :=
  (claim3_replace_semantics 7 12 sampleCourseCreate [(7, sampleCourseRead)]
    sampleCourseRead 9 12 sampleEnrollmentCreate [(9, sampleEnrollmentRead)]
    sampleEnrollmentRead rfl rfl rfl rfl).1.1

/-- C4: `GET /courses` returns exactly the stored courses satisfying all
supplied query parameters (logical AND): `name` by case-insensitive
substring containment, `course_id`, `department`, `instructor_uni` and
`semester` by exact string equality, `credits` by exact integer equality;
an absent parameter imposes no constraint, and with no parameters every
stored course is returned. -/
theorem claim4_list_courses_filter
    (q : CourseQuery) (s : Store CourseRead) (c : CourseRead) :
    (c ∈ list_courses q s ↔
      c ∈ Store.values s ∧
      (∀ x, q.course_id = some x → c.course_id = x) ∧
      (∀ x, q.name = some x → pyIn (lowerStr x) (lowerStr c.name) = true) ∧
      (∀ x, q.department = some x → c.department = x) ∧
      (∀ x, q.instructor_uni = some x → c.instructor_uni = x) ∧
      (∀ x, q.semester = some x → c.semester = x) ∧
      (∀ x, q.credits = some x → c.credits = x)) ∧
    list_courses {} s = Store.values s := by
  constructor
  · obtain ⟨q1, q2, q3, q4, q5, q6⟩ := q
    cases q1 <;> cases q2 <;> cases q3 <;> cases q4 <;> cases q5 <;> cases q6 <;>
      (simp [list_courses, List.mem_filter, and_assoc] <;> tauto)
  · rfl

/-- C4 witness: the name filter on a one-course store, via the theorem. -/
theorem claim4_witness :
    sampleCourseRead ∈
      list_courses { name := some "intro" } [(7, sampleCourseRead)] :=
  ((claim4_list_courses_filter { name := some "intro" }
      [(7, sampleCourseRead)] sampleCourseRead).1).mpr
    (by refine ⟨by simp [sampleCourseRead], ?_, ?_, ?_, ?_, ?_, ?_⟩ <;>
      intro x hx <;> simp at hx <;> subst hx <;> rfl)

/-- C9: `GET /persons` with a `city` (or `country`) query parameter returns
exactly the stored persons having at least one address in their embedded
address list whose `city` (or `country`) equals the parameter — an
existential match over the address list. -/
theorem claim9_person_city_country_filter
    (city country : Option String) (s : Store PersonRead) (p : PersonRead) :
    p ∈ list_persons { city := city, country := country } s ↔
      p ∈ Store.values s ∧
      (∀ x, city = some x → ∃ a ∈ p.addresses, a.city = x) ∧
      (∀ x, country = some x → ∃ a ∈ p.addresses, a.country = x) := by
  cases city <;> cases country <;>
    (simp [list_persons, List.mem_filter, List.any_eq_true, and_assoc] <;> tauto)

/-- C9 witness: the city filter keeps a matching person and drops a
non-matching one, via the theorem. -/
theorem claim9_witness :
    personReadOfCreate 2 samplePersonCreate ∈
      list_persons { city := some "New York" }
        [(2, personReadOfCreate 2 samplePersonCreate)] ∧
    personReadOfCreate 2 samplePersonCreate ∉
      list_persons { city := some "Boston" }
        [(2, personReadOfCreate 2 samplePersonCreate)] := by
  constructor
  · exact (claim9_person_city_country_filter (some "New York") none
      [(2, personReadOfCreate 2 samplePersonCreate)]
      (personReadOfCreate 2 samplePersonCreate)).mpr
      (by refine ⟨by simp, ?_, ?_⟩ <;> intro x hx <;> simp at hx <;> subst hx
          · exact ⟨sampleAddress, by simp [personReadOfCreate,
              samplePersonCreate], rfl⟩)
  · intro hmem
    have h := (claim9_person_city_country_filter (some "Boston") none
      [(2, personReadOfCreate 2 samplePersonCreate)]
      (personReadOfCreate 2 samplePersonCreate)).mp hmem
    have h2 := h.2.1 "Boston" rfl
    simp [personReadOfCreate, samplePersonCreate, sampleAddress] at h2

/-- C7: a course Create or Update payload whose `course_id` fails the
pattern `^[A-Z]{2,4}\d{4}$` or whose `credits` lies outside `[1,6]` is
rejected with a validation error before reaching the store (store
unchanged); a Create payload satisfying all field constraints is accepted,
and so is an Update payload satisfying all field constraints (here applied
to a stored schema-valid record with no explicit nulls for required
fields, where it reaches the store); in particular `"cs123"` fails the
pattern and `"CS1234"` matches it. -/
theorem claim7_course_validation
    (freshB nowB freshG nowG cidU cidV : Nat) (pBad pGood : CourseCreate)
    (u uGood : CourseUpdate)
    (sB sG sU sV : Store CourseRead) (rV : CourseRead)
    (hbad : courseIdOK pBad.course_id = false ∨
      ¬ (1 ≤ pBad.credits ∧ pBad.credits ≤ 6))
    (hgood : courseCreateValid pGood = true)
    (hubad : (∃ x, u.course_id = some (some x) ∧ courseIdOK x = false) ∨
      ∃ n, u.credits = some (some n) ∧ ¬ (1 ≤ n ∧ n ≤ 6))
    (hugood : courseUpdateValid uGood = true)
    (hfindV : sV.find? cidV = some rV)
    (hrV : courseFieldsOK rV.course_id rV.instructor_uni rV.credits
      rV.max_enrollment = true)
    (hciV : uGood.course_id ≠ some none) (hnmV : uGood.name ≠ some none)
    (hdpV : uGood.department ≠ some none) (hcrV : uGood.credits ≠ some none)
    (hiuV : uGood.instructor_uni ≠ some none)
    (hsmV : uGood.semester ≠ some none) :
    post_courses freshB nowB pBad sB = (.error .validation, sB) ∧
    (post_courses freshG nowG pGood sG).1 =
      .ok (courseReadOfCreate freshG nowG pGood) ∧
    patch_courses cidU u sU = (.error .validation, sU) ∧
    (∃ r2, patch_courses cidV uGood sV = (.ok r2, sV.set cidV r2)) ∧
    courseIdOK "cs123" = false ∧ courseIdOK "CS1234" = true := by
  refine ⟨?_, ?_, ?_, ?_, rfl, rfl⟩
  · have hval : courseCreateValid pBad = false := by
      rcases hbad with h | h
      · simp [courseCreateValid, h]
      · rcases not_and_or.mp h with h | h <;> simp [courseCreateValid, h]
    simp [post_courses, hval]
  · simp [post_courses, hgood, create_course]
  · have hval : courseUpdateValid u = false := by
      rcases hubad with ⟨x, hx, hxf⟩ | ⟨n, hn, hnr⟩
      · simp [courseUpdateValid, hx, hxf]
      · rcases not_and_or.mp hnr with h | h <;> simp [courseUpdateValid, hn, h]
    simp [patch_courses, hval]
  · have hv := hugood
    unfold courseUpdateValid at hv
    simp only [Bool.and_eq_true] at hv
    obtain ⟨⟨⟨hv1, hv2⟩, hv3⟩, hv4⟩ := hv
    have hrc := hrV
    unfold courseFieldsOK at hrc
    simp only [Bool.and_eq_true] at hrc
    obtain ⟨⟨⟨⟨hr1, hr2⟩, hr3⟩, hr4⟩, hr5⟩ := hrc
    obtain ⟨ci, hcie, hcio⟩ :
        ∃ x, updField uGood.course_id (some rV.course_id) = some x ∧
          courseIdOK x = true := by
      cases h : uGood.course_id with
      | none => exact ⟨rV.course_id, rfl, hr1⟩
      | some o =>
        cases o with
        | none => exact absurd h hciV
        | some y =>
          rw [h] at hv1
          exact ⟨y, rfl, hv1⟩
    obtain ⟨nm, hnme⟩ :
        ∃ x, updField uGood.name (some rV.name) = some x := by
      cases h : uGood.name with
      | none => exact ⟨rV.name, rfl⟩
      | some o =>
        cases o with
        | none => exact absurd h hnmV
        | some y => exact ⟨y, rfl⟩
    obtain ⟨dp, hdpe⟩ :
        ∃ x, updField uGood.department (some rV.department) = some x := by
      cases h : uGood.department with
      | none => exact ⟨rV.department, rfl⟩
      | some o =>
        cases o with
        | none => exact absurd h hdpV
        | some y => exact ⟨y, rfl⟩
    obtain ⟨cr, hcre, hcr1, hcr2⟩ :
        ∃ n, updField uGood.credits (some rV.credits) = some n ∧
          decide (1 ≤ n) = true ∧ decide (n ≤ 6) = true := by
      cases h : uGood.credits with
      | none => exact ⟨rV.credits, rfl, hr3, hr4⟩
      | some o =>
        cases o with
        | none => exact absurd h hcrV
        | some y =>
          rw [h] at hv3
          simp only [Bool.and_eq_true] at hv3
          exact ⟨y, rfl, hv3.1, hv3.2⟩
    obtain ⟨iu, hiue, hiuo⟩ :
        ∃ x, updField uGood.instructor_uni (some rV.instructor_uni) = some x ∧
          uniOK x = true := by
      cases h : uGood.instructor_uni with
      | none => exact ⟨rV.instructor_uni, rfl, hr2⟩
      | some o =>
        cases o with
        | none => exact absurd h hiuV
        | some y =>
          rw [h] at hv2
          exact ⟨y, rfl, hv2⟩
    obtain ⟨sm, hsme⟩ :
        ∃ x, updField uGood.semester (some rV.semester) = some x := by
      cases h : uGood.semester with
      | none => exact ⟨rV.semester, rfl⟩
      | some o =>
        cases o with
        | none => exact absurd h hsmV
        | some y => exact ⟨y, rfl⟩
    have hmeo : (match updField uGood.max_enrollment rV.max_enrollment with
        | none => true | some m => decide (1 ≤ m)) = true := by
      cases h : uGood.max_enrollment with
      | none => exact hr5
      | some o =>
        cases o with
        | none => rfl
        | some y =>
          rw [h] at hv4
          exact hv4
    have hok : courseFieldsOK ci iu cr
        (updField uGood.max_enrollment rV.max_enrollment) = true := by
      unfold courseFieldsOK
      simp [hcio, hiuo, hcr1, hcr2, hmeo]
    have hmerge : courseMerge rV uGood = some
        { course_id := ci, name := nm, department := dp, credits := cr,
          description := updField uGood.description rV.description,
          instructor_uni := iu, semester := sm,
          max_enrollment := updField uGood.max_enrollment rV.max_enrollment,
          id := rV.id, created_at := rV.created_at,
          updated_at := rV.updated_at } := by
      unfold courseMerge
      simp only [hcie, hnme, hdpe, hcre, hiue, hsme, hok, if_true]
    refine
      ⟨{ course_id := ci, name := nm, department := dp, credits := cr,
         description := updField uGood.description rV.description,
         instructor_uni := iu, semester := sm,
         max_enrollment := updField uGood.max_enrollment rV.max_enrollment,
         id := rV.id, created_at := rV.created_at,
         updated_at := rV.updated_at }, ?_⟩
    simp [patch_courses, hugood, update_course, hfindV, hmerge]

/-- C7 witness: on concrete data, `"cs123"` rejected on create, a Create
accepted, an Update with `credits = 7` rejected, and an Update with
`credits = 4` accepted, via the theorem. -/
theorem claim7_witness :
    post_courses 3 10 badCourseCreate [] = (.error .validation, []) ∧
    (post_courses 3 10 sampleCourseCreate []).1 =
      .ok (courseReadOfCreate 3 10 sampleCourseCreate) ∧
    patch_courses 7 { credits := some (some 7) } [(7, sampleCourseRead)] =
      (.error .validation, [(7, sampleCourseRead)]) ∧
    ∃ r2, patch_courses 7 { credits := some (some 4) }
        [(7, sampleCourseRead)] =
      (.ok r2, Store.set [(7, sampleCourseRead)] 7 r2) := by
  have h := claim7_course_validation 3 10 3 10 7 7 badCourseCreate
    sampleCourseCreate { credits := some (some 7) }
    { credits := some (some 4) } [] [] [(7, sampleCourseRead)]
    [(7, sampleCourseRead)] sampleCourseRead
    (Or.inl rfl) rfl (Or.inr ⟨7, rfl, by decide⟩) rfl rfl rfl
    (by decide) (by decide) (by decide) (by decide) (by decide) (by decide)
  exact ⟨h.1, h.2.1, h.2.2.1, h.2.2.2.1⟩

/-- C5: after every sequence of API requests starting from the empty state,
each stored record's identifier is unique within its own store; and a
person/course/enrollment create whose server-generated `uuid4` identifier is
fresh (the collision-freedom the spec assumes of `uuid4`) returns a record
carrying exactly that identifier, which was not previously present in that
store, and preserves uniqueness. -/
theorem claim5_identifier_uniqueness
    (ops : List ApiOp) (freshP freshC freshE nowC nowE : Nat)
    (p : PersonCreate) (c : CourseCreate) (e : EnrollmentCreate)
    (hp : personCreateValid p = true) (hc : courseCreateValid c = true)
    (he : enrollmentCreateValid e = true)
    (hfp : Store.find? (runOps AppState.empty ops).persons freshP = none)
    (hfc : Store.find? (runOps AppState.empty ops).courses freshC = none)
    (hfe : Store.find? (runOps AppState.empty ops).enrollments freshE = none) :
    keysUnique (runOps AppState.empty ops) ∧
    ((appPostPerson freshP p (runOps AppState.empty ops)).1 =
        .ok (personReadOfCreate freshP p) ∧
      (personReadOfCreate freshP p).id = freshP ∧
      freshP ∉ Store.keys (runOps AppState.empty ops).persons ∧
      keysUnique (appPostPerson freshP p (runOps AppState.empty ops)).2) ∧
    ((appPostCourse freshC nowC c (runOps AppState.empty ops)).1 =
        .ok (courseReadOfCreate freshC nowC c) ∧
      (courseReadOfCreate freshC nowC c).id = freshC ∧
      freshC ∉ Store.keys (runOps AppState.empty ops).courses ∧
      keysUnique (appPostCourse freshC nowC c (runOps AppState.empty ops)).2) ∧
    ((appPostEnrollment freshE nowE e (runOps AppState.empty ops)).1 =
        .ok (enrollmentReadOfCreate freshE nowE e) ∧
      (enrollmentReadOfCreate freshE nowE e).id = freshE ∧
      freshE ∉ Store.keys (runOps AppState.empty ops).enrollments ∧
      keysUnique
        (appPostEnrollment freshE nowE e (runOps AppState.empty ops)).2) := by
  have hbase := keysUnique_runOps ops AppState.empty keysUnique_empty
  refine ⟨hbase, ⟨?_, rfl, ?_, ?_⟩, ⟨?_, rfl, ?_, ?_⟩, ⟨?_, rfl, ?_, ?_⟩⟩
  · simp [appPostPerson, post_persons, hp, create_person]
  · rw [Store.mem_keys_iff_find?]
    simp [hfp]
  · exact keysUnique_applyOp _ (.postPerson freshP p) hbase
  · simp [appPostCourse, post_courses, hc, create_course]
  · rw [Store.mem_keys_iff_find?]
    simp [hfc]
  · exact keysUnique_applyOp _ (.postCourse freshC nowC c) hbase
  · simp [appPostEnrollment, post_enrollments, he, create_enrollment]
  · rw [Store.mem_keys_iff_find?]
    simp [hfe]
  · exact keysUnique_applyOp _ (.postEnrollment freshE nowE e) hbase

/-- C5 witness: a create after a concrete request sequence, via the
theorem. -/
theorem claim5_witness :
    (appPostCourse 3 11 sampleCourseCreate
        (runOps AppState.empty [.postCourse 1 10 sampleCourseCreate])).1 =
      .ok (courseReadOfCreate 3 11 sampleCourseCreate) :=
  (claim5_identifier_uniqueness [.postCourse 1 10 sampleCourseCreate]
    2 3 4 11 11 samplePersonCreate sampleCourseCreate sampleEnrollmentCreate
    rfl rfl rfl rfl rfl rfl).2.2.1.1

/-- C8 (counterexample): enrollment `course_id` is not a free-form string —
the payload value `"hello"` is rejected by `EnrollmentCreate` field
validation (the `CourseIDType` pattern), refuting "any string value is
accepted by field validation". -/
theorem claim8_counterexample :
    enrollmentCreateValid
      { student_uni := "abc1234", course_id := "hello",
        enrollment_date := 20 } = false ∧
    post_enrollments 5 10
      { student_uni := "abc1234", course_id := "hello",
        enrollment_date := 20 } [] = (.error .validation, []) :=
  ⟨rfl, rfl⟩

/-- C8 (amended): the enrollment `course_id` field must match the
`CourseIDType` pattern `^[A-Z]{2,4}\d{4}$` — a payload whose `course_id`
fails the pattern is rejected before reaching the store — but a payload
passing field validation is accepted with `course_id` stored verbatim, and
the value is never checked against the set of existing courses: the outcome
is the same whatever the course store holds. -/
theorem claim8_course_id_pattern_amended
    (freshId now freshB nowB : Nat) (p pBad : EnrollmentCreate)
    (st : AppState) (cs : Store CourseRead) (sB : Store EnrollmentRead)
    (hv : enrollmentCreateValid p = true)
    (hbad : courseIdOK pBad.course_id = false) :
    (appPostEnrollment freshId now p st).1 =
      .ok (enrollmentReadOfCreate freshId now p) ∧
    (enrollmentReadOfCreate freshId now p).course_id = p.course_id ∧
    appPostEnrollment freshId now p { st with courses := cs } =
      ((appPostEnrollment freshId now p st).1,
        { (appPostEnrollment freshId now p st).2 with courses := cs }) ∧
    post_enrollments freshB nowB pBad sB = (.error .validation, sB) := by
  refine ⟨?_, rfl, rfl, ?_⟩
  · simp [appPostEnrollment, post_enrollments, hv, create_enrollment]
  · have hval : enrollmentCreateValid pBad = false := by
      simp [enrollmentCreateValid, hbad]
    simp [post_enrollments, hval]

/-- C8 witness: a pattern-valid enrollment accepted against an empty course
store, via the theorem. -/
theorem claim8_witness :
    (appPostEnrollment 5 10 sampleEnrollmentCreate AppState.empty).1 =
      .ok (enrollmentReadOfCreate 5 10 sampleEnrollmentCreate) :=
  (claim8_course_id_pattern_amended 5 10 6 11 sampleEnrollmentCreate
    { sampleEnrollmentCreate with course_id := "hello" } AppState.empty
    [(7, sampleCourseRead)] [] rfl rfl).1

/-- C2 (counterexample): the PATCH body `{"student_uni": null}` passes
`EnrollmentUpdate` validation and targets a stored record, yet the supplied
field is not set to the supplied value — constructing
`EnrollmentRead(**stored)` raises a `ValidationError` (HTTP 500) and the
store keeps the old record — so "exactly the fields supplied in the payload
change to the supplied values" fails for every valid payload. -/
theorem claim2_counterexample :
    enrollmentUpdateValid nullStudentUniUpdate = true ∧
    Store.find? [(9, sampleEnrollmentRead)] 9 = some sampleEnrollmentRead ∧
    patch_enrollments 9 nullStudentUniUpdate [(9, sampleEnrollmentRead)] =
      (.error .serverError, [(9, sampleEnrollmentRead)]) :=
  ⟨rfl, rfl, rfl⟩

/-- C2 (amended): a PATCH on a stored, schema-valid enrollment with a valid
`EnrollmentUpdate` payload that does not supply an explicit `null` for any
field the Read schema requires succeeds: exactly the supplied fields change
to the supplied values, every omitted field — including `id`, `created_at`
and `updated_at`, which the Update schema cannot carry — keeps its exact
prior value, the merged record is stored back under the same identifier, and
a PATCH with an empty payload returns the old record and leaves the store
unchanged. -/
theorem claim2_patch_frame_amended
    (eid : Nat) (r : EnrollmentRead) (u : EnrollmentUpdate)
    (s : Store EnrollmentRead)
    (hfind : s.find? eid = some r)
    (hr : enrollmentFieldsOK r.student_uni r.course_id r.credits_earned = true)
    (hu : enrollmentUpdateValid u = true)
    (hsu : u.student_uni ≠ some none) (hci : u.course_id ≠ some none)
    (hed : u.enrollment_date ≠ some none) (hst : u.status ≠ some none) :
    (∃ r2 : EnrollmentRead,
      patch_enrollments eid u s = (.ok r2, s.set eid r2) ∧
      (∀ x, u.student_uni = some (some x) → r2.student_uni = x) ∧
      (u.student_uni = none → r2.student_uni = r.student_uni) ∧
      (∀ x, u.course_id = some (some x) → r2.course_id = x) ∧
      (u.course_id = none → r2.course_id = r.course_id) ∧
      (∀ x, u.enrollment_date = some (some x) → r2.enrollment_date = x) ∧
      (u.enrollment_date = none → r2.enrollment_date = r.enrollment_date) ∧
      (∀ x, u.status = some (some x) → r2.status = x) ∧
      (u.status = none → r2.status = r.status) ∧
      (∀ x, u.grade = some x → r2.grade = x) ∧
      (u.grade = none → r2.grade = r.grade) ∧
      (∀ x, u.credits_earned = some x → r2.credits_earned = x) ∧
      (u.credits_earned = none → r2.credits_earned = r.credits_earned) ∧
      r2.id = r.id ∧ r2.created_at = r.created_at ∧
      r2.updated_at = r.updated_at) ∧
    patch_enrollments eid {} s = (.ok r, s) := by
  have hv := hu
  unfold enrollmentUpdateValid at hv
  simp only [Bool.and_eq_true] at hv
  obtain ⟨⟨hv1, hv2⟩, hv3⟩ := hv
  have hrc := hr
  unfold enrollmentFieldsOK at hrc
  simp only [Bool.and_eq_true] at hrc
  obtain ⟨⟨hr1, hr2⟩, hr3⟩ := hrc
  obtain ⟨su, hsue, hsuo⟩ :
      ∃ x, updField u.student_uni (some r.student_uni) = some x ∧
        uniOK x = true := by
    cases h : u.student_uni with
    | none => exact ⟨r.student_uni, rfl, hr1⟩
    | some o =>
      cases o with
      | none => exact absurd h hsu
      | some y =>
        rw [h] at hv1
        exact ⟨y, rfl, hv1⟩
  obtain ⟨ci, hcie, hcio⟩ :
      ∃ x, updField u.course_id (some r.course_id) = some x ∧
        courseIdOK x = true := by
    cases h : u.course_id with
    | none => exact ⟨r.course_id, rfl, hr2⟩
    | some o =>
      cases o with
      | none => exact absurd h hci
      | some y =>
        rw [h] at hv2
        exact ⟨y, rfl, hv2⟩
  obtain ⟨ed, hede⟩ :
      ∃ x, updField u.enrollment_date (some r.enrollment_date) = some x := by
    cases h : u.enrollment_date with
    | none => exact ⟨r.enrollment_date, rfl⟩
    | some o =>
      cases o with
      | none => exact absurd h hed
      | some y => exact ⟨y, rfl⟩
  obtain ⟨stv, hste⟩ :
      ∃ x, updField u.status (some r.status) = some x := by
    cases h : u.status with
    | none => exact ⟨r.status, rfl⟩
    | some o =>
      cases o with
      | none => exact absurd h hst
      | some y => exact ⟨y, rfl⟩
  have hceo : (match updField u.credits_earned r.credits_earned with
      | none => true | some n => decide (0 ≤ n)) = true := by
    cases h : u.credits_earned with
    | none => exact hr3
    | some o =>
      cases o with
      | none => rfl
      | some y =>
        rw [h] at hv3
        exact hv3
  have hok : enrollmentFieldsOK su ci
      (updField u.credits_earned r.credits_earned) = true := by
    unfold enrollmentFieldsOK
    simp [hsuo, hcio, hceo]
  have hmerge : enrollmentMerge r u = some
      { student_uni := su, course_id := ci, enrollment_date := ed,
        status := stv, grade := updField u.grade r.grade,
        credits_earned := updField u.credits_earned r.credits_earned,
        id := r.id, created_at := r.created_at,
        updated_at := r.updated_at } := by
    unfold enrollmentMerge
    simp only [hsue, hcie, hede, hste, hok, if_true]
  have hgate : enrollmentUpdateValid ({} : EnrollmentUpdate) = true := rfl
  have hemptymerge : enrollmentMerge r {} = some r := by
    unfold enrollmentMerge
    have hok2 : enrollmentFieldsOK r.student_uni r.course_id
        r.credits_earned = true := hr
    simp only [updField, hok2, if_true]
  constructor
  · refine
      ⟨{ student_uni := su, course_id := ci, enrollment_date := ed,
         status := stv, grade := updField u.grade r.grade,
         credits_earned := updField u.credits_earned r.credits_earned,
         id := r.id, created_at := r.created_at, updated_at := r.updated_at },
       ?_, ?_, ?_, ?_, ?_, ?_, ?_, ?_, ?_, ?_, ?_, ?_, ?_, rfl, rfl, rfl⟩
    · simp [patch_enrollments, hu, update_enrollment, hfind, hmerge]
    · intro x hx
      rw [hx] at hsue
      exact (Option.some.inj hsue).symm
    · intro hx
      rw [hx] at hsue
      exact (Option.some.inj hsue).symm
    · intro x hx
      rw [hx] at hcie
      exact (Option.some.inj hcie).symm
    · intro hx
      rw [hx] at hcie
      exact (Option.some.inj hcie).symm
    · intro x hx
      rw [hx] at hede
      exact (Option.some.inj hede).symm
    · intro hx
      rw [hx] at hede
      exact (Option.some.inj hede).symm
    · intro x hx
      rw [hx] at hste
      exact (Option.some.inj hste).symm
    · intro hx
      rw [hx] at hste
      exact (Option.some.inj hste).symm
    · intro x hx
      show updField u.grade r.grade = x
      rw [hx]
      rfl
    · intro hx
      show updField u.grade r.grade = r.grade
      rw [hx]
      rfl
    · intro x hx
      show updField u.credits_earned r.credits_earned = x
      rw [hx]
      rfl
    · intro hx
      show updField u.credits_earned r.credits_earned = r.credits_earned
      rw [hx]
      rfl
  · have hstep : patch_enrollments eid ({} : EnrollmentUpdate) s =
        (.ok r, s.set eid r) := by
      simp [patch_enrollments, hgate, update_enrollment, hfind, hemptymerge]
    rw [hstep, Store.set_find?_eq s eid r hfind]

/-- C2 witness: `{"status": "completed", "grade": "A"}` on a stored
enrollment changes exactly those two fields, via the amended theorem; and an
empty PATCH leaves the store unchanged. -/
theorem claim2_witness :
    patch_enrollments 9 ({} : EnrollmentUpdate) [(9, sampleEnrollmentRead)] =
      (.ok sampleEnrollmentRead, [(9, sampleEnrollmentRead)]) :=
  (claim2_patch_frame_amended 9 sampleEnrollmentRead
    { status := some (some .completed), grade := some (some "A") }
    [(9, sampleEnrollmentRead)] rfl rfl rfl (by decide) (by decide)
    (by decide) (by decide)).2

end SimpleMicro
